import Mathlib

/-!
Verification development for the BannerForge rendering engine
(single Python source file `forge.py`), shallowly embedded in Lean 4.

Conventions of the embedding:
  * Python `dict` literals keyed by strings become Lean structures or
    association lists (`List (String × α)`); `dict.get k default` becomes
    `(l.lookup k).getD default`.
  * Python strings become Lean `String`; where the kernel must evaluate,
    we work on the underlying `List Char` (`s.data`).
  * Machine integers are `Nat` (all quantities here are non-negative);
    Python `int(h * 0.78)` on a positive float literal is modelled as
    exact rational arithmetic `h * 78 / 100` using `Nat` floor division.
    At every concrete instance appearing in a theorem below the double
    rounding of the Python expression agrees with the exact value.
  * Fallible code returns `Except`/`Option`.
-/

namespace BannerForge

/-- A color palette record, mirroring the dict entries of `PALETTES`
(forge.py lines 82-155).  Field names follow the Python keys. -/
structure Palette where
  bg : String
  accent : String
  text : String
  muted : String
  gradient_start : String
  gradient_end : String
deriving DecidableEq, Repr

/-- The `stealth` palette (forge.py lines 83-90). -/
def stealthPalette : Palette :=
  { bg := "#0a0f14", accent := "#00ffff", text := "#ffffff", muted := "#9aa4ad"
    gradient_start := "#00ffff", gradient_end := "#0088ff" }

/-- The `ember` palette (forge.py lines 91-98). -/
def emberPalette : Palette :=
  { bg := "#0f0a07", accent := "#ff8a3b", text := "#f5e9e3", muted := "#c9b5a3"
    gradient_start := "#ff8a3b", gradient_end := "#ff4d4d" }

/-- The `forest` palette (forge.py lines 99-106). -/
def forestPalette : Palette :=
  { bg := "#0d1b0e", accent := "#4ade80", text := "#e8f5e9", muted := "#81c784"
    gradient_start := "#4ade80", gradient_end := "#22c55e" }

/-- The `ocean` palette (forge.py lines 107-114). -/
def oceanPalette : Palette :=
  { bg := "#0a1628", accent := "#38bdf8", text := "#e0f2fe", muted := "#7dd3fc"
    gradient_start := "#38bdf8", gradient_end := "#0ea5e9" }

/-- The `sunset` palette (forge.py lines 115-122). -/
def sunsetPalette : Palette :=
  { bg := "#1a0f1e", accent := "#f472b6", text := "#fce7f3", muted := "#f9a8d4"
    gradient_start := "#f472b6", gradient_end := "#ec4899" }

/-- The `neon` palette (forge.py lines 123-130). -/
def neonPalette : Palette :=
  { bg := "#000000", accent := "#00ff41", text := "#00ff41", muted := "#39ff14"
    gradient_start := "#00ff41", gradient_end := "#39ff14" }

/-- The `royal` palette (forge.py lines 131-138). -/
def royalPalette : Palette :=
  { bg := "#1e1b4b", accent := "#fbbf24", text := "#fef3c7", muted := "#fcd34d"
    gradient_start := "#fbbf24", gradient_end := "#f59e0b" }

/-- The `cyberpunk` palette (forge.py lines 139-146). -/
def cyberpunkPalette : Palette :=
  { bg := "#0d0221", accent := "#ff006e", text := "#f72585", muted := "#b5179e"
    gradient_start := "#ff006e", gradient_end := "#8338ec" }

/-- The `matrix` palette (forge.py lines 147-154). -/
def matrixPalette : Palette :=
  { bg := "#000000", accent := "#00ff00", text := "#00ff00", muted := "#008f00"
    gradient_start := "#00ff00", gradient_end := "#00aa00" }

/-- The `PALETTES` registry (forge.py lines 82-155), as an association
list in the insertion order of the Python dict. -/
def PALETTES : List (String × Palette) :=
  [("stealth", stealthPalette), ("ember", emberPalette), ("forest", forestPalette),
   ("ocean", oceanPalette), ("sunset", sunsetPalette), ("neon", neonPalette),
   ("royal", royalPalette), ("cyberpunk", cyberpunkPalette), ("matrix", matrixPalette)]

/-- `get_palette` (forge.py lines 157-159):
`PALETTES.get(name, PALETTES["stealth"])`. -/
def get_palette (name : String) : Palette :=
  (PALETTES.lookup name).getD stealthPalette

/-- Numeric value of one hexadecimal digit, by code point: `0`-`9` are
48-57, `a`-`f` are 97-102, `A`-`F` are 65-70.  Models the digit handling
of Python `int(s, 16)`. -/
def hexDigitVal (c : Char) : Option Nat :=
  let n := c.toNat
  if 48 ≤ n ∧ n ≤ 57 then some (n - 48)
  else if 97 ≤ n ∧ n ≤ 102 then some (n - 87)
  else if 65 ≤ n ∧ n ≤ 70 then some (n - 55)
  else none

/-- Value of a two-digit hexadecimal string slice `hex_color[i:i+2]`,
as computed by `int(_, 16)`. -/
def hexPairVal (hi lo : Char) : Option Nat := do
  let h ← hexDigitVal hi
  let l ← hexDigitVal lo
  pure (16 * h + l)

/-- `_hex_to_rgb` (forge.py lines 384-387): strips leading `#`
characters (`lstrip`), then reads the two-digit slices at offsets 0, 2
and 4.  Python raises `ValueError`/`IndexError` on malformed input;
that is modelled by `none`. -/
def hex_to_rgb (hex_color : String) : Option (Nat × Nat × Nat) :=
  match hex_color.data.dropWhile (· == '#') with
  | c0 :: c1 :: c2 :: c3 :: c4 :: c5 :: _ => do
      let r ← hexPairVal c0 c1
      let g ← hexPairVal c2 c3
      let b ← hexPairVal c4 c5
      pure (r, g, b)
  | _ => none

/-- A well-formed color literal as used throughout `PALETTES`: `#`
followed by exactly six hexadecimal digits. -/
def isHexColor (s : String) : Bool :=
  match s.data with
  | c :: ds => c == '#' && ds.length == 6 && ds.all (fun x => (hexDigitVal x).isSome)
  | [] => false

/-- All six color fields of a palette are well-formed hex literals. -/
def paletteWellFormed (p : Palette) : Bool :=
  isHexColor p.bg && isHexColor p.accent && isHexColor p.text &&
  isHexColor p.muted && isHexColor p.gradient_start && isHexColor p.gradient_end

/-- One entry of the `TEMPLATES` table (forge.py lines 455-486). -/
structure Template where
  style : String
  palette : String
  effects : List String
deriving DecidableEq, Repr

/-- The `TEMPLATES` table (forge.py lines 455-486). -/
def TEMPLATES : List (String × Template) :=
  [("minimal", { style := "wave", palette := "stealth", effects := [] }),
   ("professional", { style := "grid", palette := "royal", effects := ["shadow"] }),
   ("creative", { style := "geometric", palette := "sunset", effects := ["glow", "gradient"] }),
   ("tech", { style := "wave", palette := "neon", effects := ["glow"] }),
   ("nature", { style := "wave", palette := "forest", effects := ["blur"] }),
   ("cyberpunk", { style := "particles", palette := "cyberpunk", effects := ["glow", "shadow"] })]

/-- Template application in the `svg` command (forge.py lines 540-544):
`if template: tmpl = TEMPLATES[template]; style = tmpl["style"];
palette = tmpl["palette"]`.  The CLI restricts `template` to recognized
names, so the unrecognized case (a Python `KeyError`) is modelled as
leaving the explicit values untouched. -/
def svg_resolve (template : Option String) (style palette : String) :
    String × String :=
  match template.bind (fun t => TEMPLATES.lookup t) with
  | some tmpl => (tmpl.style, tmpl.palette)
  | none => (style, palette)

/-- Template application in the `png` command (forge.py lines 578-584):
`if template: tmpl = TEMPLATES[template]; palette = tmpl["palette"];
effects = tmpl["effects"]`. -/
def png_resolve (template : Option String) (palette : String)
    (effects : List String) : String × List String :=
  match template.bind (fun t => TEMPLATES.lookup t) with
  | some tmpl => (tmpl.palette, tmpl.effects)
  | none => (palette, effects)

/-- One record of a batch specification file, keeping the fields the
`batch` command reads (forge.py lines 654-682).  `text` is optional
here because `item["text"]` is the one mandatory key: its absence
raises `KeyError`. -/
structure BatchItem where
  kind : String := "svg"
  text : Option String := none
  palette : String := "stealth"
deriving DecidableEq, Repr

/-- Output file extension per banner kind, as picked by the branches of
the batch loop (forge.py lines 665-682). -/
def batchExt (kind : String) : String :=
  if kind = "ascii" then ".txt" else if kind = "png" then ".png" else ".svg"

/-- Python `text.replace(" ", "_")[:30]` used to derive file names. -/
def safeName (text : String) : String :=
  ⟨(text.data.map (fun c => if c == ' ' then '_' else c)).take 30⟩

/-- The `batch` command loop (forge.py lines 654-686).  Processes the
records in order; the result is the list of artifact paths written, in
order, paired with `some error` if the loop aborted.  `item["text"]` on
a record without a `text` key raises `KeyError`, which propagates out
of the command: no later record is processed, and no artifact is
written for the offending record. -/
def batchRun (outdir : String) : List BatchItem → List String × Option String
  | [] => ([], none)
  | item :: rest =>
    match item.text with
    | none => ([], some ("KeyError: \x27text\x27"))
    | some t =>
      let path := outdir ++ "/" ++ safeName t ++ batchExt item.kind
      let (paths, err) := batchRun outdir rest
      (path :: paths, err)

/-- Number of records of a batch that carry the mandatory `text` key. -/
def countValid (items : List BatchItem) : Nat :=
  (items.filter (fun i => i.text.isSome)).length

/-! ### Accent generators (forge.py lines 206-241)

`svg_accent_particles` seeds the Python stdlib generator with
`random.seed(42)` at the top of every call.  The stdlib generator is
external to this repository; it is modelled here by a concrete 64-bit
linear congruential generator.  What the claims depend on is exactly
what the model preserves: the state is a pure value re-seeded inside
the call, and `randint a b` returns a value in the inclusive range
`[a, b]`. -/

/-- Model of the external seeded pseudo-random generator: one 64-bit
LCG step. -/
def lcgStep (s : Nat) : Nat :=
  (6364136223846793005 * s + 1442695040888963407) % (2 ^ 64)

/-- Model of Python `random.randint(a, b)`: inclusive on both ends,
threading the generator state explicitly. -/
def randint (a b s : Nat) : Nat × Nat :=
  let s2 := lcgStep s
  (a + s2 % (b - a + 1), s2)

/-- One iteration of the particle loop (forge.py lines 236-240): draw
`x`, `y` and `r` in that order. -/
def particleStep (width height s : Nat) : (Nat × Nat × Nat) × Nat :=
  let (x, s1) := randint 0 width s
  let (y, s2) := randint 0 height s1
  let (r, s3) := randint 2 8 s2
  ((x, y, r), s3)

/-- The `for _ in range(30)` loop of `svg_accent_particles`,
generalized over the iteration count and generator state. -/
def particleLoop : Nat → Nat → Nat → Nat → List (Nat × Nat × Nat)
  | 0, _, _, _ => []
  | n + 1, width, height, s =>
    let (p, s2) := particleStep width height s
    p :: particleLoop n width height s2

/-- The 30 particle triples `(x, y, r)` of one call, starting from the
fixed seed 42 (forge.py line 234). -/
def particleTriples (width height : Nat) : List (Nat × Nat × Nat) :=
  particleLoop 30 width height 42

/-- The `<circle .../>` line for one particle (forge.py line 240). -/
def particleCircle (color opacity : String) (p : Nat × Nat × Nat) : String :=
  "<circle cx=\"" ++ Nat.repr p.1 ++ "\" cy=\"" ++ Nat.repr p.2.1 ++
  "\" r=\"" ++ Nat.repr p.2.2 ++ "\" fill=\"" ++ color ++
  "\" opacity=\"" ++ opacity ++ "\"/>"

/-- `svg_accent_particles` (forge.py lines 231-241).  The `opacity`
argument is the already-formatted opacity literal (Python formats the
float default `0.08` as `0.08`). -/
def svg_accent_particles (width height : Nat) (color : String)
    (opacity : String := "0.08") : String :=
  String.intercalate ("\n  ") ((particleTriples width height).map
    (particleCircle color opacity))

/-- Decimal digits of the fraction `r / den` (with `r < den` and `den`
dividing 1000), trailing zeros dropped, modelling how Python prints
the fractional part of the exact-decimal float values that arise in
the accent geometry. -/
def fracDecimals (r den : Nat) : String :=
  let n3 := r * 1000 / den
  let d1 := n3 / 100
  let d2 := n3 / 10 % 10
  let d3 := n3 % 10
  if d3 ≠ 0 then Nat.repr d1 ++ Nat.repr d2 ++ Nat.repr d3
  else if d2 ≠ 0 then Nat.repr d1 ++ Nat.repr d2
  else Nat.repr d1

/-- Python f-string rendering of `n * (num / den)` where `n` is an int
and `num / den` stands for a positive decimal float literal.  The
value is computed exactly over the rationals; at every concrete
instance used in the theorems below the IEEE double computed by Python
rounds to the same decimal string (checked by hand for the 1200 x 300
wave geometry, where every product is an exact integer `X`, printed as
`X.0`). -/
def pyMulStr (n num den : Nat) : String :=
  let p := n * num
  if p % den == 0 then Nat.repr (p / den) ++ ".0"
  else Nat.repr (p / den) ++ "." ++ fracDecimals (p % den) den

/-- `svg_accent_wave` (forge.py lines 206-209). -/
def svg_accent_wave (width height : Nat) (color : String)
    (opacity : String := "0.12") : String :=
  "<path d=\"M0 " ++ pyMulStr height 65 100 ++ " C " ++ pyMulStr width 25 100 ++
  " " ++ pyMulStr height 40 100 ++ ", " ++ pyMulStr width 75 100 ++ " " ++
  pyMulStr height 90 100 ++ ", " ++ Nat.repr width ++ " " ++
  pyMulStr height 60 100 ++ " L " ++ Nat.repr width ++ " " ++ Nat.repr height ++
  " L 0 " ++ Nat.repr height ++ " Z\" fill=\"" ++ color ++ "\" opacity=\"" ++
  opacity ++ "\" />"

/-- `svg_accent_geometric` (forge.py lines 211-219).  The two derived
opacity literals are the Python renderings of `0.1 * 0.7` and
`0.1 * 0.5` at the default opacity. -/
def svg_accent_geometric (width height : Nat) (color : String)
    (opacity : String := "0.1") (opacity07 : String := "0.07000000000000001")
    (opacity05 : String := "0.05") : String :=
  String.intercalate ("\n  ")
    ["<circle cx=\"" ++ pyMulStr width 15 100 ++ "\" cy=\"" ++
       pyMulStr height 20 100 ++ "\" r=\"" ++ pyMulStr height 15 100 ++
       "\" fill=\"" ++ color ++ "\" opacity=\"" ++ opacity ++ "\"/>",
     "<circle cx=\"" ++ pyMulStr width 85 100 ++ "\" cy=\"" ++
       pyMulStr height 80 100 ++ "\" r=\"" ++ pyMulStr height 20 100 ++
       "\" fill=\"" ++ color ++ "\" opacity=\"" ++ opacity07 ++ "\"/>",
     "<rect x=\"" ++ pyMulStr width 70 100 ++ "\" y=\"" ++
       pyMulStr height 10 100 ++ "\" width=\"" ++ pyMulStr width 20 100 ++
       "\" height=\"" ++ pyMulStr height 15 100 ++ "\" fill=\"" ++ color ++
       "\" opacity=\"" ++ opacity05 ++ "\" transform=\"rotate(15 " ++
       pyMulStr width 80 100 ++ " " ++ pyMulStr height 175 1000 ++ ")\"/>"]

/-- Python `range(0, stop, step)` for a positive step. -/
def pyRange (stop step : Nat) : List Nat :=
  List.range' 0 ((stop + step - 1) / step) step

/-- `svg_accent_grid` (forge.py lines 221-229): vertical then
horizontal lines every 50 units. -/
def svg_accent_grid (width height : Nat) (color : String)
    (opacity : String := "0.05") : String :=
  let vlines := (pyRange width 50).map (fun x =>
    "<line x1=\"" ++ Nat.repr x ++ "\" y1=\"0\" x2=\"" ++ Nat.repr x ++
    "\" y2=\"" ++ Nat.repr height ++ "\" stroke=\"" ++ color ++
    "\" opacity=\"" ++ opacity ++ "\"/>")
  let hlines := (pyRange height 50).map (fun y =>
    "<line x1=\"0\" y1=\"" ++ Nat.repr y ++ "\" x2=\"" ++ Nat.repr width ++
    "\" y2=\"" ++ Nat.repr y ++ "\" stroke=\"" ++ color ++
    "\" opacity=\"" ++ opacity ++ "\"/>")
  String.intercalate ("\n  ") (vlines ++ hlines)

/-! ### Vector composer (forge.py lines 164-288) -/

/-- The subtitle `<text>` element (forge.py lines 261-263), or the
empty string when the subtitle is absent or empty — Python
`if subtitle:` is falsy on both `None` and `""`.  Numeric slots are
`width // 2`, `int(height * 0.78)` and `int(height * 0.075)`. -/
def subtitle_tag (subtitle : Option String) (width height : Nat)
    (pal : Palette) : String :=
  match subtitle with
  | none => ""
  | some s =>
    if s == "" then ""
    else
      "<text x=\"" ++ Nat.repr (width / 2) ++ "\" y=\"" ++
      Nat.repr (height * 78 / 100) ++
      "\" font-family=\"Inter,Arial,Helvetica\" font-size=\"" ++
      Nat.repr (height * 75 / 1000) ++ "\" fill=\"" ++ pal.muted ++
      "\" text-anchor=\"middle\">" ++ s ++ "</text>"

/-- `SVG_TEMPLATE_SIMPLE` (forge.py lines 164-182) with its slots
filled, transcribed line for line. -/
def svgTemplateSimple (width height : Nat) (label bg grad_start grad_end
    filters accent : String) (x y font_size : Nat) (font_family text_fill
    text_style txt subtitle animation : String) : String :=
  "<?xml version=\"1.0\" encoding=\"UTF-8\"?>\n" ++
  "<svg width=\"" ++ Nat.repr width ++ "\" height=\"" ++ Nat.repr height ++
  "\" viewBox=\"0 0 " ++ Nat.repr width ++ " " ++ Nat.repr height ++
  "\" xmlns=\"http://www.w3.org/2000/svg\" role=\"img\" aria-label=\"" ++
  label ++ "\">\n" ++
  "  <defs>\n" ++
  "    <linearGradient id=\"grad1\" x1=\"0%\" y1=\"0%\" x2=\"100%\" y2=\"100%\">\n" ++
  "      <stop offset=\"0%\" style=\"stop-color:" ++ grad_start ++
  ";stop-opacity:1\" />\n" ++
  "      <stop offset=\"100%\" style=\"stop-color:" ++ grad_end ++
  ";stop-opacity:1\" />\n" ++
  "    </linearGradient>\n" ++
  "    " ++ filters ++ "\n" ++
  "  </defs>\n" ++
  "  <rect width=\"100%\" height=\"100%\" fill=\"" ++ bg ++ "\" />\n" ++
  "  <!-- accent shapes -->\n" ++
  "  " ++ accent ++ "\n" ++
  "  <!-- main text -->\n" ++
  "  <text x=\"" ++ Nat.repr x ++ "\" y=\"" ++ Nat.repr y ++
  "\" font-family=\"" ++ font_family ++ "\" font-size=\"" ++
  Nat.repr font_size ++ "\" font-weight=\"700\" fill=\"" ++ text_fill ++
  "\" text-anchor=\"middle\" " ++ text_style ++ ">" ++ txt ++ "</text>\n" ++
  "  <!-- subtitle -->\n" ++
  "  " ++ subtitle ++ "\n" ++
  "  " ++ animation ++ "\n" ++
  "</svg>\n"

/-- `SVG_ANIMATED_TEMPLATE` (forge.py lines 184-204) with its slots
filled. -/
def svgTemplateAnimated (width height : Nat) (bg grad_start grad_end
    accent : String) (x y font_size : Nat) (font_family txt
    subtitle : String) : String :=
  "<?xml version=\"1.0\" encoding=\"UTF-8\"?>\n" ++
  "<svg width=\"" ++ Nat.repr width ++ "\" height=\"" ++ Nat.repr height ++
  "\" viewBox=\"0 0 " ++ Nat.repr width ++ " " ++ Nat.repr height ++
  "\" xmlns=\"http://www.w3.org/2000/svg\">\n" ++
  "  <defs>\n" ++
  "    <linearGradient id=\"animGrad\" x1=\"0%\" y1=\"0%\" x2=\"100%\" y2=\"0%\">\n" ++
  "      <stop offset=\"0%\" style=\"stop-color:" ++ grad_start ++ "\">\n" ++
  "        <animate attributeName=\"stop-color\" values=\"" ++ grad_start ++
  ";" ++ grad_end ++ ";" ++ grad_start ++
  "\" dur=\"3s\" repeatCount=\"indefinite\"/>\n" ++
  "      </stop>\n" ++
  "      <stop offset=\"100%\" style=\"stop-color:" ++ grad_end ++ "\">\n" ++
  "        <animate attributeName=\"stop-color\" values=\"" ++ grad_end ++
  ";" ++ grad_start ++ ";" ++ grad_end ++
  "\" dur=\"3s\" repeatCount=\"indefinite\"/>\n" ++
  "      </stop>\n" ++
  "    </linearGradient>\n" ++
  "  </defs>\n" ++
  "  <rect width=\"100%\" height=\"100%\" fill=\"" ++ bg ++ "\"/>\n" ++
  "  " ++ accent ++ "\n" ++
  "  <text x=\"" ++ Nat.repr x ++ "\" y=\"" ++ Nat.repr y ++
  "\" font-family=\"" ++ font_family ++ "\" font-size=\"" ++
  Nat.repr font_size ++
  "\" font-weight=\"700\" fill=\"url(#animGrad)\" text-anchor=\"middle\">\n" ++
  "    " ++ txt ++ "\n" ++
  "    <animate attributeName=\"opacity\" values=\"0.8;1;0.8\" dur=\"2s\" repeatCount=\"indefinite\"/>\n" ++
  "  </text>\n" ++
  "  " ++ subtitle ++ "\n" ++
  "</svg>\n"

/-- The `accent_map` dict of `write_svg` (forge.py lines 251-256),
each entry applied at its default opacity as in line 258. -/
def accent_map : List (String × (Nat → Nat → String → String)) :=
  [("wave", fun w h c => svg_accent_wave w h c),
   ("geometric", fun w h c => svg_accent_geometric w h c),
   ("grid", fun w h c => svg_accent_grid w h c),
   ("particles", fun w h c => svg_accent_particles w h c)]

/-- The glow filter definition literal (forge.py line 276). -/
def glowFilterDef : String :=
  "<filter id=\"glow\"><feGaussianBlur stdDeviation=\"2\" result=\"coloredBlur\"/><feMerge><feMergeNode in=\"coloredBlur\"/><feMergeNode in=\"SourceGraphic\"/></feMerge></filter>"

/-- `write_svg` (forge.py lines 243-288), returning the document
string that the Python function writes to `path`.  Numeric slots of
the non-animated branch are `width // 2`, `int(height * 0.55)` and
`int(height * 0.2)`, modelled exactly over `Nat`. -/
def write_svg (text : String) (subtitle : Option String)
    (width : Nat := 1200) (height : Nat := 300)
    (pal : Palette := stealthPalette) (style : String := "wave")
    (animated : Bool := false) : String :=
  let accent_func := (accent_map.lookup style).getD
    (fun w h c => svg_accent_wave w h c)
  let accent := accent_func width height pal.accent
  let st := subtitle_tag subtitle width height pal
  if animated then
    svgTemplateAnimated width height pal.bg pal.gradient_start
      pal.gradient_end accent (width / 2) (height * 55 / 100)
      (height * 2 / 10) "Orbitron,Inter,Arial" text st
  else
    let text_style := if style == "glow" then "filter=\"url(#glow)\"" else ""
    svgTemplateSimple width height text pal.bg pal.gradient_start
      pal.gradient_end glowFilterDef accent (width / 2) (height * 55 / 100)
      (height * 2 / 10) "Orbitron,Inter,Arial" pal.text text_style text st ("")

/-- Occurrence count of a pattern inside a character list: the number
of positions at which the pattern is a prefix of the remaining
suffix. -/
def countSubAux : List Char → List Char → Nat
  | [], _ => 0
  | c :: rest, pat =>
    (if pat.isPrefixOf (c :: rest) then 1 else 0) + countSubAux rest pat

/-- Occurrence count of `pat` inside `s` (non-empty patterns). -/
def countOccur (s pat : String) : Nat :=
  countSubAux s.data pat.data

/-- Substring test on character lists. -/
def hasSubL : List Char → List Char → Bool
  | [], pat => pat.isEmpty
  | c :: rest, pat => pat.isPrefixOf (c :: rest) || hasSubL rest pat

/-- Substring test on strings. -/
def hasSub (s pat : String) : Bool :=
  hasSubL s.data pat.data

/-! ### Raster compositor (forge.py lines 292-382)

The Pillow canvas is external; the compositor is embedded as the list
of drawing commands issued to it, in issue order.  Text measurement
(`draw.textbbox`) is Pillow state, so it is a function parameter; the
availability of Pillow (`Image is None` after the guarded import) is a
Boolean parameter. -/

/-- Result of `draw.textbbox((0, 0), text, font)`: the Pillow bounding
box `(x0, y0, x1, y1)`. -/
structure BBox where
  x0 : Int
  y0 : Int
  x1 : Int
  y1 : Int
deriving DecidableEq, Repr

/-- A fill argument passed to a Pillow draw call: either a color
string (palette hex literal) or an `(r, g, b, alpha)` tuple whose rgb
part may come from `_hex_to_rgb` (hence `Option`). -/
inductive Fill where
  | named (color : String)
  | rgba (rgb : Option (Nat × Nat × Nat)) (alpha : Nat)
deriving DecidableEq, Repr

/-- One drawing command issued by `render_png_text`, in the
vocabulary of the Pillow calls it makes. -/
inductive DrawOp where
  | canvas (width height : Nat) (bg : String)
  | putPixel (x y : Nat) (fill : Fill)
  | drawText (x y : ℚ) (s : String) (fontSize : Nat) (fill : Fill)
  | rect (x0 y0 x1 y1 : Nat) (fill : Fill)
  | gaussianBlur (radius : Nat)
deriving DecidableEq, Repr

/-- `render_png_text` (forge.py lines 292-382) as the sequence of
drawing commands it issues.  The stages appear in the fixed source
order: gradient wash, shadow, glow, main text, subtitle, stripe, blur;
each is gated on membership of its flag in `effects` (Python `in`).
`int(height * 0.22)` and the other float products are modelled
exactly over `Nat`; text positions are exact rationals.  When Pillow
is unavailable the call itself raises `RuntimeError` (line 296-297),
modelled as `Except.error`. -/
def render_png_text (pillowAvailable : Bool) (bbox : String → Nat → BBox)
    (text : String) (subtitle : Option String) (width height : Nat)
    (pal : Palette) (effects : List String) : Except String (List DrawOp) :=
  if pillowAvailable = false then
    Except.error ("Pillow is required. Install: pip install pillow")
  else
    let gradOps : List DrawOp :=
      if effects.contains ("gradient") then
        (List.range height).flatMap (fun y =>
          let alpha := 50 * (height - y) / height
          (List.range width).map (fun x =>
            DrawOp.putPixel x y (.rgba (hex_to_rgb pal.accent) alpha)))
      else []
    let titleSize := height * 22 / 100
    let subSize := height * 7 / 100
    let b := bbox text titleSize
    let tw : ℚ := ((b.x1 - b.x0 : ℤ) : ℚ)
    let th : ℚ := ((b.y1 - b.y0 : ℤ) : ℚ)
    let x : ℚ := ((width : ℚ) - tw) / 2
    let y : ℚ := (height : ℚ) * (35 / 100) - th / 2
    let shadowOps : List DrawOp :=
      if effects.contains ("shadow") then
        [DrawOp.drawText (x + 4) (y + 4) text titleSize (.rgba (some (0, 0, 0)) 128)]
      else []
    let glowFill : Fill := .rgba (hex_to_rgb pal.accent) 80
    let glowOps : List DrawOp :=
      if effects.contains ("glow") then
        [3, 2, 1].flatMap (fun off =>
          [DrawOp.drawText (x - off) y text titleSize glowFill,
           DrawOp.drawText (x + off) y text titleSize glowFill,
           DrawOp.drawText x (y - off) text titleSize glowFill,
           DrawOp.drawText x (y + off) text titleSize glowFill])
      else []
    let mainOp := DrawOp.drawText x y text titleSize (.named pal.text)
    let subOps : List DrawOp :=
      match subtitle with
      | some s =>
        if s == "" then []
        else
          let sb := bbox s subSize
          let sw : ℚ := ((sb.x1 - sb.x0 : ℤ) : ℚ)
          let sh : ℚ := ((sb.y1 - sb.y0 : ℤ) : ℚ)
          let sx : ℚ := ((width : ℚ) - sw) / 2
          let sy : ℚ := (height : ℚ) * (75 / 100) - sh / 2
          [DrawOp.drawText sx sy s subSize (.named pal.muted)]
      | none => []
    let stripeOps : List DrawOp :=
      if effects.contains ("stripe") then
        [DrawOp.rect 0 (height * 85 / 100) width height
          (.rgba (hex_to_rgb pal.accent) 68)]
      else []
    let blurOps : List DrawOp :=
      if effects.contains ("blur") then [DrawOp.gaussianBlur 1] else []
    Except.ok ([DrawOp.canvas width height pal.bg] ++ gradOps ++ shadowOps ++
      glowOps ++ [mainOp] ++ subOps ++ stripeOps ++ blurOps)

/-! ### Tagline suggestion fallback (forge.py lines 424-451) -/

/-- The `bannerforge` entry of the offline fallback table. -/
def bannerforgeTaglines : List String :=
  ["Forge Your Visual Identity", "Create. Design. Deploy.",
   "Professional Banners Made Simple"]

/-- The `default` entry of the offline fallback table. -/
def defaultTaglines : List String :=
  ["See What Others Miss", "Innovation Through Design",
   "Crafted with Precision"]

/-- The `fallbacks` dict (forge.py lines 434-445). -/
def tagline_fallbacks : List (String × List String) :=
  [("bannerforge", bannerforgeTaglines), ("default", defaultTaglines)]

/-- The single-quote character, written by code point. -/
def quoteChar : Char := Char.ofNat 39

/-- Python `str.lower()` restricted to the ASCII range, which covers
every prompt built by the program. -/
def pyLower (s : String) : String :=
  ⟨s.data.map Char.toLower⟩

/-- Splitting a character list at every occurrence of a separator,
like Python `str.split(sep)`. -/
def splitOnChar (sep : Char) : List Char → List (List Char)
  | [] => [[]]
  | c :: rest =>
    let r := splitOnChar sep rest
    if c == sep then [] :: r
    else
      match r with
      | h :: t => (c :: h) :: t
      | [] => [[c]]

/-- The key expression of the fallback branch (forge.py line 446):
`prompt.lower().split(QUOTE)[1] if QUOTE in prompt else "default"`,
where QUOTE is the single-quote character.  When a quote is present
the split has at least two pieces, so index 1 is in range. -/
def extractKey (prompt : String) : String :=
  if prompt.data.contains quoteChar then
    match splitOnChar quoteChar (pyLower prompt).data with
    | _ :: second :: _ => ⟨second⟩
    | _ => ""
  else "default"

/-- `gemini_generate_taglines` (forge.py lines 424-451).  `api_key` is
the merged credential (explicit argument or the `GEMINI_API_KEY`
environment value); Python `if not api_key:` is falsy on `None` and on
the empty string. -/
def gemini_generate_taglines (prompt : String) (n : Nat)
    (api_key : Option String) : List String :=
  if (api_key.getD ("")) == "" then
    ((tagline_fallbacks.lookup (extractKey prompt)).getD defaultTaglines).take n
  else
    ["Creative Tagline 1", "Creative Tagline 2", "Creative Tagline 3"].take n

/-- The offline lookup rule as the SPEC describes it (for comparison
with the implementation): the fixed table is keyed by a lowercase
substring match against the requested text, with the generic fallback
list when no key matches, truncated to the requested count. -/
def spec_substring_suggest (text : String) (n : Nat) : List String :=
  if hasSub (pyLower text) ("bannerforge") then bannerforgeTaglines.take n
  else defaultTaglines.take n

/-! ### ANSI colorize and strip (forge.py lines 76-78 and 391-414)

`strip_ansi` is `re.sub` with the pattern ESC `[` `[0-9;]+` `m`.  For
this pattern the regex engine is deterministic: after ESC `[` it
consumes a maximal nonempty run of digits and semicolons and then
requires a literal `m` (no backtracking position inside the run can
succeed, because no run character is `m`).  `re.sub` removes the
leftmost non-overlapping matches; the scanner below implements exactly
that. -/

/-- The escape character ESC (code point 27), written `\\033` in the
source. -/
def escChar : Char := Char.ofNat 27

/-- Characters matched by the `[0-9;]` class. -/
def isAnsiClass (c : Char) : Bool :=
  c.isDigit || c == ';'

/-- After ESC `[` and one class character: consume further class
characters, then require `m`; returns the remainder after the match. -/
def ansiRest : List Char → Option (List Char)
  | [] => none
  | c :: r => if isAnsiClass c then ansiRest r else if c == 'm' then some r else none

/-- After ESC `[`: require at least one class character, then
`ansiRest`. -/
def ansiBody : List Char → Option (List Char)
  | [] => none
  | c :: r => if isAnsiClass c then ansiRest r else none

/-- After ESC: require `[`, then `ansiBody`. -/
def ansiSeq : List Char → Option (List Char)
  | [] => none
  | c :: r => if c == '[' then ansiBody r else none

theorem ansiRest_length : ∀ l r, ansiRest l = some r → r.length ≤ l.length := by
  intro l
  induction l with
  | nil => intro r h; simp [ansiRest] at h
  | cons c t ih =>
    intro r h
    simp only [ansiRest] at h
    split at h
    · have := ih r h; simp; omega
    · split at h
      · cases h; simp
      · cases h

theorem ansiBody_length : ∀ l r, ansiBody l = some r → r.length ≤ l.length := by
  intro l r h
  cases l with
  | nil => simp [ansiBody] at h
  | cons c t =>
    simp only [ansiBody] at h
    split at h
    · have := ansiRest_length t r h; simp; omega
    · cases h

theorem ansiSeq_length : ∀ l r, ansiSeq l = some r → r.length ≤ l.length := by
  intro l r h
  cases l with
  | nil => simp [ansiSeq] at h
  | cons c t =>
    simp only [ansiSeq] at h
    split at h
    · have := ansiBody_length t r h; simp; omega
    · cases h

/-- The scanner of `strip_ansi` (forge.py lines 76-78): walk the text,
removing every leftmost match of the ANSI pattern. -/
def stripAnsiList (l : List Char) : List Char :=
  match l with
  | [] => []
  | c :: rest =>
    if c == escChar then
      match h : ansiSeq rest with
      | some r2 => stripAnsiList r2
      | none => c :: stripAnsiList rest
    else c :: stripAnsiList rest
termination_by l.length
decreasing_by
  · have := ansiSeq_length rest r2 h; simp; omega
  · simp
  · simp

/-- `strip_ansi` (forge.py lines 76-78) on strings. -/
def strip_ansi (s : String) : String :=
  ⟨stripAnsiList s.data⟩

/-- Whether some position of the text starts a match of the ANSI
pattern; `false` formalizes "contains no ANSI escape sequences". -/
def hasAnsiMatch : List Char → Bool
  | [] => false
  | c :: rest => (c == escChar && (ansiSeq rest).isSome) || hasAnsiMatch rest

/-- The `colors` dict of `ascii_banner` (forge.py lines 401-410). -/
def ansi_colors : List (String × String) :=
  [("red", "\x1b[91m"), ("green", "\x1b[92m"), ("yellow", "\x1b[93m"),
   ("blue", "\x1b[94m"), ("magenta", "\x1b[95m"), ("cyan", "\x1b[96m"),
   ("white", "\x1b[97m"), ("reset", "\x1b[0m")]

/-- The colorizing step of `ascii_banner` (forge.py lines 411-412):
`colors.get(color, colors["cyan"])` wrapped around the banner,
followed by the reset code. -/
def colorize_banner (banner color : String) : String :=
  let color_code := (ansi_colors.lookup color).getD ("\x1b[96m")
  color_code ++ banner ++ "\x1b[0m"

/-! ### General helper lemmas -/

theorem data_append (s t : String) : (s ++ t).data = s.data ++ t.data := rfl

theorem particleLoop_spec : ∀ (n width height s : Nat),
    (particleLoop n width height s).length = n ∧
    (particleLoop n width height s).all
      (fun p => 2 ≤ p.2.2 && p.2.2 ≤ 8) = true := by
  intro n
  induction n with
  | zero => intro w h s; simp [particleLoop]
  | succ k ih =>
    intro w h s
    simp only [particleLoop, particleStep, randint, List.length_cons,
      List.all_cons, Bool.and_eq_true]
    refine ⟨by simpa using (ih w h _).1, ⟨?_, ?_⟩, by simpa using (ih w h _).2⟩
    · simp
    · have hlt : lcgStep (lcgStep (lcgStep s)) % (8 - 2 + 1) < 7 :=
        Nat.mod_lt _ (by omega)
      simp only [decide_eq_true_eq]
      omega

theorem palettes_lookup_wf : ∀ (l : List (String × Palette)),
    l.all (fun pr => paletteWellFormed pr.2) = true →
    ∀ (name : String) (p : Palette),
      l.lookup name = some p → paletteWellFormed p = true := by
  intro l
  induction l with
  | nil => intro _ name p h; simp [List.lookup] at h
  | cons e t ih =>
    intro hall name p h
    simp only [List.all_cons, Bool.and_eq_true] at hall
    simp only [List.lookup] at h
    split at h
    · cases h; exact hall.1
    · exact ih hall.2 name p h

/-! ### Claim theorems -/

/-- C1, counterexample: resolving the recognized template
`professional` together with an explicit palette of `ocean` does NOT
yield palette `ocean` — both the svg and the png command discard the
explicit value and use the template palette `royal`. -/
theorem C1_counterexample :
    svg_resolve (some ("professional")) "wave" "ocean" = ("grid", "royal") ∧
    png_resolve (some ("professional")) "ocean" [] = ("royal", ["shadow"]) ∧
    ("royal" : String) ≠ "ocean" :=
  ⟨rfl, rfl, by decide⟩

/-- C1, amended: template-supplied values take precedence over the
explicit per-call values: resolving `professional` yields
{style: grid, palette: royal, effects: [shadow]} whatever the explicit
style, palette and effects are, and without a template the explicit
values pass through unchanged. -/
theorem C1_template_precedence :
    ∀ (style palette : String) (effects : List String),
      svg_resolve (some ("professional")) style palette = ("grid", "royal") ∧
      png_resolve (some ("professional")) palette effects = ("royal", ["shadow"]) ∧
      svg_resolve none style palette = (style, palette) ∧
      png_resolve none palette effects = (palette, effects) := by
  intro style palette effects
  exact ⟨rfl, rfl, rfl, rfl⟩

/-- C2, counterexample: a batch of a valid record, a record missing
`text`, and another valid record writes exactly one artifact (not one
per valid record) and aborts: the loop raises `KeyError` at the
malformed record and the remaining record is never processed. -/
theorem C2_counterexample :
    (batchRun ("batch_banners")
      [{ kind := "svg", text := some ("Alpha") },
       { kind := "svg", text := none },
       { kind := "svg", text := some ("Beta") }]).1.length = 1 ∧
    countValid
      [{ kind := "svg", text := some ("Alpha") },
       { kind := "svg", text := none },
       { kind := "svg", text := some ("Beta") }] = 2 ∧
    (batchRun ("batch_banners")
      [{ kind := "svg", text := some ("Alpha") },
       { kind := "svg", text := none },
       { kind := "svg", text := some ("Beta") }]).2.isSome = true := by
  refine ⟨rfl, rfl, rfl⟩

/-- C2, amended: batch processing aborts at the first record missing
`text`: exactly the records before it produce artifacts, the error
propagates, and the records after it are not processed. -/
theorem C2_batch_aborts :
    ∀ (outdir : String) (pre : List BatchItem) (item : BatchItem)
      (post : List BatchItem),
      (∀ i ∈ pre, i.text.isSome = true) → item.text = none →
      (batchRun outdir (pre ++ item :: post)).1.length = pre.length ∧
      (batchRun outdir (pre ++ item :: post)).2 = some ("KeyError: \x27text\x27") := by
  intro outdir pre item post hpre hitem
  induction pre with
  | nil =>
    simp [batchRun, hitem]
  | cons i t ih =>
    have hi : i.text.isSome = true := hpre i (by simp)
    obtain ⟨s, hs⟩ := Option.isSome_iff_exists.mp hi
    have ht := ih (fun j hj => hpre j (by simp [hj]))
    simp only [List.cons_append, batchRun, hs, List.length_cons, List.append_eq]
    exact ⟨by rw [ht.1], ht.2⟩

/-- C2 witness for `C2_batch_aborts` at a concrete batch. -/
theorem C2_batch_aborts_witness :
    (batchRun ("out") [{ kind := "svg", text := some ("Alpha") },
      { kind := "png", text := none },
      { kind := "svg", text := some ("Beta") }]).1.length = 1 ∧
    (batchRun ("out") [{ kind := "svg", text := some ("Alpha") },
      { kind := "png", text := none },
      { kind := "svg", text := some ("Beta") }]).2 = some ("KeyError: \x27text\x27") := by
  have := C2_batch_aborts ("out") [{ kind := "svg", text := some ("Alpha") }]
    { kind := "png", text := none } [{ kind := "svg", text := some ("Beta") }]
    (by intro i hi; simp at hi; subst hi; rfl) rfl
  simpa using this

/-- C3: accent generation for the `particles` style is deterministic —
two calls with identical `(width, height, color, opacity)` give
byte-identical geometry — and the geometry consists of exactly 30
circles whose radii all lie between 2 and 8, drawn from the generator
re-seeded with 42 inside every call. -/
theorem C3_particles_deterministic :
    ∀ (width height : Nat) (color opacity : String),
      svg_accent_particles width height color opacity =
        svg_accent_particles width height color opacity ∧
      (particleTriples width height).length = 30 ∧
      (particleTriples width height).all
        (fun p => 2 ≤ p.2.2 && p.2.2 ≤ 8) = true := by
  intro w h c o
  exact ⟨rfl, (particleLoop_spec 30 w h 42).1, (particleLoop_spec 30 w h 42).2⟩

/-- C4: the raster pipeline is independent of the order in which the
effects are requested: for every render request, requesting
`["glow", "shadow"]` and `["shadow", "glow"]` issue the identical
sequence of drawing commands, because each stage is gated on set
membership in the fixed internal order. -/
theorem C4_effect_request_order :
    ∀ (pillowAvailable : Bool) (bbox : String → Nat → BBox) (text : String)
      (subtitle : Option String) (width height : Nat) (pal : Palette),
      render_png_text pillowAvailable bbox text subtitle width height pal
        ["glow", "shadow"] =
      render_png_text pillowAvailable bbox text subtitle width height pal
        ["shadow", "glow"] := by
  intro pillowAvailable bbox text subtitle width height pal
  rfl

/-- C5: palette lookup never fails: every name resolves to a palette
whose six color fields are well-formed hex literals, and every
unrecognized name resolves to exactly the default `stealth` palette. -/
theorem C5_palette_resolution :
    ∀ name : String,
      paletteWellFormed (get_palette name) = true ∧
      (PALETTES.lookup name = none → get_palette name = stealthPalette) := by
  intro name
  constructor
  · unfold get_palette
    cases h : PALETTES.lookup name with
    | none => simp only [h, Option.getD_none]; decide
    | some p =>
      simp only [h, Option.getD_some]
      exact palettes_lookup_wf PALETTES (by decide) name p h
  · intro h
    unfold get_palette
    rw [h]
    rfl

/-- C5 witness for `C5_palette_resolution` at an unrecognized name. -/
theorem C5_palette_resolution_witness :
    paletteWellFormed (get_palette ("no-such-palette")) = true ∧
    get_palette ("no-such-palette") = stealthPalette :=
  ⟨(C5_palette_resolution ("no-such-palette")).1,
   (C5_palette_resolution ("no-such-palette")).2 (by decide)⟩

/-- C6, counterexample: with Pillow unavailable, each raster rendering
invocation individually raises the missing-backend `RuntimeError`
(forge.py lines 296-297) — here two distinct calls both fail with it,
so the error is not a report made once at startup. -/
theorem C6_counterexample :
    render_png_text false (fun _ _ => ⟨0, 0, 0, 0⟩) ("First") none 1200 300
        stealthPalette [] =
      Except.error ("Pillow is required. Install: pip install pillow") ∧
    render_png_text false (fun _ _ => ⟨0, 0, 0, 0⟩) ("Second") none 800 200
        oceanPalette ["glow"] =
      Except.error ("Pillow is required. Install: pip install pillow") :=
  ⟨rfl, rfl⟩

/-- C6, amended: a missing raster backend is detected inside each
call: every invocation of the raster renderer with Pillow unavailable
raises the missing-backend error (the guarded import at startup never
raises). -/
theorem C6_missing_pillow_per_call :
    ∀ (bbox : String → Nat → BBox) (text : String) (subtitle : Option String)
      (width height : Nat) (pal : Palette) (effects : List String),
      render_png_text false bbox text subtitle width height pal effects =
        Except.error ("Pillow is required. Install: pip install pillow") := by
  intro bbox text subtitle width height pal effects
  rfl

theorem hexDigitVal_le15 : ∀ (c : Char) (v : Nat),
    hexDigitVal c = some v → v ≤ 15 := by
  intro c v h
  simp only [hexDigitVal] at h
  split at h
  · cases h; omega
  · split at h
    · cases h; omega
    · split at h
      · cases h; omega
      · cases h

theorem hexDigitVal_ne_hash : ∀ c : Char,
    (hexDigitVal c).isSome = true → (c == '#') = false := by
  intro c h
  by_contra hne
  have hc : c = '#' := by
    cases heq : c == '#' with
    | true => exact eq_of_beq heq
    | false => exact absurd heq hne
  subst hc
  exact absurd h (by decide)

theorem hexPairVal_le255 : ∀ (hi lo : Char) (v : Nat),
    hexPairVal hi lo = some v → v ≤ 255 := by
  intro hi lo v h
  unfold hexPairVal at h
  cases h1 : hexDigitVal hi with
  | none => rw [h1] at h; simp at h
  | some a =>
    rw [h1] at h
    cases h2 : hexDigitVal lo with
    | none => rw [h2] at h; simp at h
    | some b =>
      rw [h2] at h
      simp at h
      have ha := hexDigitVal_le15 hi a h1
      have hb := hexDigitVal_le15 lo b h2
      omega

/-- C10: every string of the form `#` plus six hexadecimal digits
converts to an RGB triple with all components at most 255, and every
color field of each of the nine built-in palettes has that form, so
the conversion used by the gradient, glow and stripe raster effects
(which read `palette.accent`) never raises on a built-in palette. -/
theorem C10_hex_to_rgb :
    (∀ s : String, isHexColor s = true →
      ∃ r g b, hex_to_rgb s = some (r, g, b) ∧ r ≤ 255 ∧ g ≤ 255 ∧ b ≤ 255) ∧
    PALETTES.all (fun pr => paletteWellFormed pr.2) = true ∧
    PALETTES.all (fun pr => (hex_to_rgb pr.2.accent).isSome) = true := by
  refine ⟨?_, by decide, by decide⟩
  intro s hs
  unfold isHexColor at hs
  rcases hdata : s.data with _ | ⟨c, ds⟩ <;> rw [hdata] at hs
  · exact absurd (show (false : Bool) = true from hs) (by decide)
  · replace hs : (c == '#' && (ds.length == 6 &&
        ds.all (fun x => (hexDigitVal x).isSome))) = true := by
      simpa [Bool.and_assoc] using hs
    simp only [Bool.and_eq_true, beq_iff_eq] at hs
    obtain ⟨hc, hlen, hall⟩ := hs
    subst hc
    rcases ds with _ | ⟨d0, ds⟩; · simp at hlen
    rcases ds with _ | ⟨d1, ds⟩; · simp at hlen
    rcases ds with _ | ⟨d2, ds⟩; · simp at hlen
    rcases ds with _ | ⟨d3, ds⟩; · simp at hlen
    rcases ds with _ | ⟨d4, ds⟩; · simp at hlen
    rcases ds with _ | ⟨d5, rest⟩; · simp at hlen
    have hrest0 : rest = [] := by
      simp only [List.length_cons] at hlen
      have : rest.length = 0 := by omega
      exact List.length_eq_zero.mp this
    subst hrest0
    simp only [List.all_cons, List.all_nil, Bool.and_eq_true,
      Option.isSome_iff_exists] at hall
    obtain ⟨⟨e0, h0⟩, ⟨e1, h1⟩, ⟨e2, h2⟩, ⟨e3, h3⟩, ⟨e4, h4⟩, ⟨e5, h5⟩, _⟩ := hall
    unfold hex_to_rgb
    rw [hdata]
    have hdw : ('#' :: [d0, d1, d2, d3, d4, d5]).dropWhile (· == '#') =
        [d0, d1, d2, d3, d4, d5] := by
      simp only [List.dropWhile]
      rw [show (('#' : Char) == '#') = true from rfl]
      rw [hexDigitVal_ne_hash d0 (by simp [h0])]
    rw [hdw]
    refine ⟨16 * e0 + e1, 16 * e2 + e3, 16 * e4 + e5, ?_, ?_, ?_, ?_⟩
    · simp [hexPairVal, h0, h1, h2, h3, h4, h5]
    · have a0 := hexDigitVal_le15 d0 e0 h0
      have a1 := hexDigitVal_le15 d1 e1 h1
      omega
    · have a2 := hexDigitVal_le15 d2 e2 h2
      have a3 := hexDigitVal_le15 d3 e3 h3
      omega
    · have a4 := hexDigitVal_le15 d4 e4 h4
      have a5 := hexDigitVal_le15 d5 e5 h5
      omega

/-- C10 witness for `C10_hex_to_rgb` at the stealth background
color. -/
theorem C10_hex_to_rgb_witness :
    ∃ r g b, hex_to_rgb ("#0a0f14") = some (r, g, b) ∧
      r ≤ 255 ∧ g ≤ 255 ∧ b ≤ 255 :=
  C10_hex_to_rgb.1 ("#0a0f14") (by decide)

/-- C8, counterexample: the offline tagline fallback is not a
substring lookup.  For the prompt the program builds around the
requested text `BannerForge Pro`, the code extracts the quoted text
`bannerforge pro` and finds no exact table key, returning the generic
list — while the substring rule of the claim would match the key
`bannerforge` and return its entry. -/
theorem C8_counterexample :
    gemini_generate_taglines
        ("Create subtitle for banner: \x27BannerForge Pro\x27") 3 none =
      defaultTaglines ∧
    spec_substring_suggest ("BannerForge Pro") 3 = bannerforgeTaglines ∧
    defaultTaglines ≠ bannerforgeTaglines := by
  refine ⟨by decide, by decide, by decide⟩

/-- C8, amended: with no credential configured the suggestion is
deterministic and offline, but the table is keyed by an EXACT match on
the lowercased text between the first two single quotes of the prompt
(`default` when the prompt has no quote): the `bannerforge` entry is
returned exactly when that extracted key is `bannerforge`, otherwise
the generic fallback list, in both cases truncated to the requested
count. -/
theorem C8_offline_lookup :
    ∀ (prompt : String) (n : Nat),
      gemini_generate_taglines prompt n none =
        (if extractKey prompt = "bannerforge" then bannerforgeTaglines
         else defaultTaglines).take n ∧
      (gemini_generate_taglines prompt n none).length ≤ n := by
  intro prompt n
  have hmain : gemini_generate_taglines prompt n none =
      (if extractKey prompt = "bannerforge" then bannerforgeTaglines
       else defaultTaglines).take n := by
    unfold gemini_generate_taglines
    rw [if_pos (by rfl)]
    by_cases hk : extractKey prompt = "bannerforge"
    · simp [tagline_fallbacks, List.lookup, beq_iff_eq, hk]
    · have hk2 : (extractKey prompt == "bannerforge") = false :=
        beq_eq_false_iff_ne.mpr hk
      by_cases hd : extractKey prompt = "default"
      · simp [tagline_fallbacks, List.lookup, hk2, beq_iff_eq, hk, hd]
      · have hd2 : (extractKey prompt == "default") = false :=
          beq_eq_false_iff_ne.mpr hd
        simp [tagline_fallbacks, List.lookup, hk2, hd2, beq_iff_eq, hk]
  refine ⟨hmain, ?_⟩
  rw [hmain]
  simp [List.length_take]

set_option maxRecDepth 10000 in
/-- C7: the request `text="Test", width=1200, height=300,
palette="stealth", style="wave"` with subtitle omitted produces a
vector document with exactly one `<text>` element, which carries
`text-anchor="middle"`, and no subtitle element; the subtitle element
(at `x = width // 2`, baseline `int(0.78 * height)`, font size
`int(0.075 * height)`, filled with the muted palette color, as checked
here at 1200 x 300) is emitted exactly when the subtitle is present
and non-empty. -/
theorem C7_vector_subtitle :
    countOccur (write_svg ("Test") none 1200 300 stealthPalette ("wave") false)
        ("<text") = 1 ∧
    hasSub (write_svg ("Test") none 1200 300 stealthPalette ("wave") false)
        ("text-anchor=\"middle\"") = true ∧
    subtitle_tag (some ("Hi")) 1200 300 stealthPalette =
      "<text x=\"600\" y=\"234\" font-family=\"Inter,Arial,Helvetica\" font-size=\"22\" fill=\"#9aa4ad\" text-anchor=\"middle\">Hi</text>" ∧
    ∀ (sub : Option String) (width height : Nat) (pal : Palette),
      (subtitle_tag sub width height pal = "" ↔ sub = none ∨ sub = some "") := by
  refine ⟨by decide, by decide, by decide, ?_⟩
  intro sub width height pal
  constructor
  · intro h
    cases sub with
    | none => exact Or.inl rfl
    | some s =>
      cases hse : s == "" with
      | true => exact Or.inr (by rw [eq_of_beq hse])
      | false =>
        exfalso
        unfold subtitle_tag at h
        simp only [hse, Bool.false_eq_true, if_false] at h
        have hd := congrArg String.data h
        simp only [data_append] at hd
        have hlen := congrArg List.length hd
        simp only [List.length_append] at hlen
        have h9 : ("<text x=\"").data.length = 9 := by decide
        rw [h9] at hlen
        simp at hlen
  · intro h
    rcases h with h | h
    · rw [h]; rfl
    · rw [h]; rfl

/-! ### ANSI lemmas for C9 -/

theorem ansiRest_all_class : ∀ (ds x : List Char), ds.all isAnsiClass = true →
    ansiRest (ds ++ 'm' :: x) = some x := by
  intro ds
  induction ds with
  | nil =>
    intro x _
    simp only [List.nil_append, ansiRest]
    rw [show isAnsiClass 'm' = false from by decide]
    simp
  | cons d t ih =>
    intro x hall
    simp only [List.all_cons, Bool.and_eq_true] at hall
    simp only [List.cons_append, ansiRest]
    rw [hall.1]
    simp only [if_true]
    exact ih x hall.2

theorem strip_code : ∀ (ds x : List Char), ds ≠ [] → ds.all isAnsiClass = true →
    stripAnsiList (escChar :: '[' :: (ds ++ 'm' :: x)) = stripAnsiList x := by
  intro ds x hne hall
  have hseq : ansiSeq ('[' :: (ds ++ 'm' :: x)) = some x := by
    show ansiBody (ds ++ 'm' :: x) = some x
    cases ds with
    | nil => exact absurd rfl hne
    | cons d t =>
      simp only [List.all_cons, Bool.and_eq_true] at hall
      show (if isAnsiClass d = true then ansiRest (t ++ 'm' :: x) else none) = some x
      rw [hall.1]
      simp only [if_true]
      exact ansiRest_all_class t x hall.2
  rw [stripAnsiList]
  rw [show (escChar == escChar) = true from rfl]
  simp only [if_true]
  split
  · next r2 heq => rw [hseq] at heq; cases heq; rfl
  · next heq => rw [hseq] at heq; cases heq

theorem ansiRest_append_reset_none : ∀ (t r : List Char), ansiRest t = none →
    ansiRest (t ++ escChar :: r) = none := by
  intro t
  induction t with
  | nil =>
    intro r _
    show (if isAnsiClass escChar = true then ansiRest r
          else if (escChar == 'm') = true then some r else none) = none
    rw [if_neg (by decide), if_neg (by decide)]
  | cons c t ih =>
    intro r h
    simp only [ansiRest] at h
    simp only [List.cons_append, List.append_eq, ansiRest]
    split at h
    · rename_i hcond
      rw [if_pos hcond]
      exact ih r h
    · rename_i hcond
      rw [if_neg hcond]
      split at h
      · exact absurd h (by simp)
      · rename_i hm
        rw [if_neg hm]

theorem ansiBody_append_reset_none : ∀ (t r : List Char), ansiBody t = none →
    ansiBody (t ++ escChar :: r) = none := by
  intro t r h
  cases t with
  | nil =>
    show (if isAnsiClass escChar = true then ansiRest r else none) = none
    rw [if_neg (by decide)]
  | cons c t2 =>
    simp only [ansiBody] at h
    simp only [List.cons_append, List.append_eq, ansiBody]
    split at h
    · rename_i hcond
      rw [if_pos hcond]
      exact ansiRest_append_reset_none t2 r h
    · rename_i hcond
      rw [if_neg hcond]

theorem ansiSeq_append_reset_none : ∀ (t r : List Char), ansiSeq t = none →
    ansiSeq (t ++ escChar :: r) = none := by
  intro t r h
  cases t with
  | nil =>
    show (if (escChar == '[') = true then ansiBody r else none) = none
    rw [if_neg (by decide)]
  | cons c t2 =>
    simp only [ansiSeq] at h
    simp only [List.cons_append, List.append_eq, ansiSeq]
    split at h
    · rename_i hcond
      rw [if_pos hcond]
      exact ansiBody_append_reset_none t2 r h
    · rename_i hcond
      rw [if_neg hcond]

theorem strip_boundary : ∀ bs : List Char, hasAnsiMatch bs = false →
    stripAnsiList (bs ++ [escChar, '[', '0', 'm']) = bs := by
  intro bs
  induction bs with
  | nil =>
    intro _
    rw [List.nil_append]
    rw [show ([escChar, '[', '0', 'm'] : List Char) =
        escChar :: '[' :: (['0'] ++ 'm' :: []) from rfl]
    rw [strip_code ['0'] [] (by decide) (by decide)]
    rw [stripAnsiList]
  | cons c t ih =>
    intro h
    simp only [hasAnsiMatch, Bool.or_eq_false_iff, Bool.and_eq_false_iff] at h
    obtain ⟨h1, h2⟩ := h
    have ihx := ih h2
    simp only [List.cons_append, List.append_eq, stripAnsiList]
    split
    · rename_i hcond
      have hnone : ansiSeq t = none := by
        rcases h1 with h1 | h1
        · exact absurd hcond (by simp [h1])
        · exact Option.not_isSome_iff_eq_none.mp (by simp [h1])
      have happ := ansiSeq_append_reset_none t ['[', '0', 'm'] hnone
      split
      · rename_i r2 heq
        rw [happ] at heq
        cases heq
      · rw [ihx]
    · rw [ihx]

theorem color_code_form : ∀ color : String, ∃ ds : List Char,
    ((ansi_colors.lookup color).getD ("\x1b[96m")).data =
      escChar :: '[' :: (ds ++ ['m']) ∧ ds ≠ [] ∧ ds.all isAnsiClass = true := by
  intro color
  unfold ansi_colors
  simp only [List.lookup]
  repeat' split
  · exact ⟨['9', '1'], by decide, by decide, by decide⟩
  · exact ⟨['9', '2'], by decide, by decide, by decide⟩
  · exact ⟨['9', '3'], by decide, by decide, by decide⟩
  · exact ⟨['9', '4'], by decide, by decide, by decide⟩
  · exact ⟨['9', '5'], by decide, by decide, by decide⟩
  · exact ⟨['9', '6'], by decide, by decide, by decide⟩
  · exact ⟨['9', '7'], by decide, by decide, by decide⟩
  · exact ⟨['0'], by decide, by decide, by decide⟩
  · exact ⟨['9', '6'], by decide, by decide, by decide⟩

/-- C9: stripping ANSI styling is a left inverse of colorizing: for
every banner text containing no ANSI escape sequence and every color
name (recognized or not), stripping the colorized banner (color code
plus banner plus reset code) returns exactly the original banner. -/
theorem C9_strip_left_inverse : ∀ (banner color : String),
    hasAnsiMatch banner.data = false →
    strip_ansi (colorize_banner banner color) = banner := by
  intro banner color h
  obtain ⟨ds, hcode, hne, hall⟩ := color_code_form color
  show String.mk (stripAnsiList
    ((((ansi_colors.lookup color).getD ("\x1b[96m")) ++ banner ++ "\x1b[0m").data)) = banner
  have hdata : (((ansi_colors.lookup color).getD ("\x1b[96m")) ++ banner ++
      ("\x1b[0m" : String)).data =
      escChar :: '[' :: (ds ++ ('m' :: (banner.data ++ [escChar, '[', '0', 'm']))) := by
    rw [data_append, data_append, hcode]
    rw [show ("\x1b[0m" : String).data = [escChar, '[', '0', 'm'] from by decide]
    simp [List.append_assoc]
  rw [hdata]
  rw [strip_code ds _ hne hall]
  rw [strip_boundary banner.data h]

/-- C9 witness for `C9_strip_left_inverse` at a concrete banner and an
unrecognized color name. -/
theorem C9_strip_left_inverse_witness :
    hasAnsiMatch ("HELLO").data = false ∧
    strip_ansi (colorize_banner ("HELLO") ("nope")) = "HELLO" :=
  ⟨by decide, C9_strip_left_inverse ("HELLO") ("nope") (by decide)⟩

end BannerForge
